import Mathlib

/-!
Shallow embedding of the jar-ledger and recurring-expense core of the
expense-tracker backend (FastAPI + SQLAlchemy).  Money amounts (SQL
`Numeric(12,2)` columns manipulated through Python `Decimal`) are modelled
as `Rat`: every operation the code performs on them (addition, subtraction,
multiplication, division by 100) is exact in `Decimal` for the magnitudes
involved, so `Rat` arithmetic coincides with the code's arithmetic.
Database tables are lists of records; `query(...).filter(...).first()` is
`List.find?`; mutating the found ORM object is updating the first matching
element of the list.  Calendar dates are `(year, month, day)` triples with
the Gregorian day-count rules, and `dateutil.relativedelta` month/year
steps are the usual clamp-to-end-of-month arithmetic.
-/

/-- Calendar date, ordered lexicographically like Python `datetime.date`. -/
structure Date where
  year : Nat
  month : Nat
  day : Nat
deriving DecidableEq, Repr

/-- Strict `<` on dates (lexicographic on year, month, day). -/
def dltb (a b : Date) : Bool :=
  a.year < b.year ||
    (a.year == b.year && (a.month < b.month ||
      (a.month == b.month && a.day < b.day)))

/-- Non-strict `<=` on dates. -/
def dleb (a b : Date) : Bool :=
  a.year < b.year ||
    (a.year == b.year && (a.month < b.month ||
      (a.month == b.month && a.day <= b.day)))

/-- Gregorian leap-year rule (Python `calendar.isleap`). -/
def isLeap (y : Nat) : Bool :=
  y % 4 == 0 && (y % 100 != 0 || y % 400 == 0)

/-- Number of days in a month (months outside 1..12 never arise for valid
dates; the default 31 keeps the function total). -/
def daysInMonth (y m : Nat) : Nat :=
  if m = 2 then (if isLeap y then 29 else 28)
  else if m = 4 ∨ m = 6 ∨ m = 9 ∨ m = 11 then 30
  else 31

/-- Model of `dateutil.relativedelta(months=1)`: advance one calendar month and
clamp the day to the length of the target month. -/
def addOneMonthClamped (d : Date) : Date :=
  let y := if d.month = 12 then d.year + 1 else d.year
  let m := if d.month = 12 then 1 else d.month + 1
  ⟨y, m, min d.day (daysInMonth y m)⟩

/-- Model of `dateutil.relativedelta(years=1)`: advance one year, clamping Feb 29. -/
def addOneYearClamped (d : Date) : Date :=
  ⟨d.year + 1, d.month, min d.day (daysInMonth (d.year + 1) d.month)⟩

/-- Successor day (`+ timedelta(days=1)`). -/
def nextDay (d : Date) : Date :=
  if d.day < daysInMonth d.year d.month then ⟨d.year, d.month, d.day + 1⟩
  else if d.month < 12 then ⟨d.year, d.month + 1, 1⟩
  else ⟨d.year + 1, 1, 1⟩

/-- Predecessor day (`- timedelta(days=1)`). -/
def prevDay (d : Date) : Date :=
  if 1 < d.day then ⟨d.year, d.month, d.day - 1⟩
  else if 1 < d.month then ⟨d.year, d.month - 1, daysInMonth d.year (d.month - 1)⟩
  else ⟨d.year - 1, 12, 31⟩

/-- Model of `+ timedelta(days=n)`. -/
def addDays (d : Date) : Nat → Date
  | 0 => d
  | n + 1 => nextDay (addDays d n)

/-- Python truthiness of a nullable integer column (`None` and `0` are
falsy). -/
def truthyId : Option Int → Bool
  | none => false
  | some v => v != 0

/-- The `RecurringExpense` template row (`app/models/recurring_expense.py`).
`frequency` is the raw string column; `last_created` is the date of the
most recently materialized occurrence, if any. -/
structure RecurringExpense where
  id : Int
  user_id : Int
  category_id : Int
  amount : Rat
  description : String
  frequency : String
  day_of_month : Option Nat
  day_of_week : Option Nat
  start_date : Date
  end_date : Option Date
  is_active : Bool
  last_created : Option Date
deriving DecidableEq, Repr

/-- The monthly branch of `RecurringExpense.next_due_date`: one
`relativedelta(months=1)` step from the anchor, then
`replace(day=day_of_month)` with the `ValueError` fallback
`replace(day=1) + relativedelta(months=1) - timedelta(days=1)`
(= last day of the target month). -/
def monthlyNext (dom : Option Nat) (base : Date) : Date :=
  let n1 := addOneMonthClamped base
  match dom with
  | some dm =>
      if dm ≠ 0 then
        if 1 ≤ dm ∧ dm ≤ daysInMonth n1.year n1.month then
          ⟨n1.year, n1.month, dm⟩
        else
          prevDay (addOneMonthClamped ⟨n1.year, n1.month, 1⟩)
      else n1
  | none => n1

/-- The frequency step of `next_due_date` applied to the anchor
`last_created`, before the `end_date` bound is applied; `none` for an
unrecognized frequency string (the property's final `return None`). -/
def rawNextFromAnchor (t : RecurringExpense) (base : Date) : Option Date :=
  if t.frequency = "monthly" then some (monthlyNext t.day_of_month base)
  else if t.frequency = "weekly" then some (addDays base 7)
  else if t.frequency = "yearly" then some (addOneYearClamped base)
  else none

/-- The computed next occurrence of a template (the date `next_due_date`
checks against `end_date`): `start_date` when never materialized, else the
frequency step from `last_created`. -/
def rawNextDate (t : RecurringExpense) : Option Date :=
  match t.last_created with
  | none => some t.start_date
  | some base => rawNextFromAnchor t base

/-- Embedding of `RecurringExpense.next_due_date` (`app/models/recurring_expense.py`),
with `today` (the code's `date.today()`) as an explicit argument.
Mirrors the source: inactive -> None; expired (`end_date < today` and the
anchor has not reached `end_date`) -> None; never materialized -> the
start date unless it exceeds `end_date`; otherwise one frequency step from
`last_created`, dropped if it exceeds `end_date`. -/
def next_due_date (t : RecurringExpense) (today : Date) : Option Date :=
  if !t.is_active then none
  else if (match t.end_date with
           | some e =>
             dltb e today &&
               (match t.last_created with
                | none => true
                | some lc => dltb lc e)
           | none => false) then none
  else
    match t.last_created with
    | none =>
        match t.end_date with
        | some e => if dltb e t.start_date then none else some t.start_date
        | none => some t.start_date
    | some base =>
        match rawNextFromAnchor t base with
        | some nd =>
            match t.end_date with
            | some e => if dltb e nd then none else some nd
            | none => some nd
        | none => none

/-- A `jars` table row (`app/models/jar.py`).  `created_at` is an abstract
timestamp (`None` only in pathological rows; the code guards for it). -/
structure Jar where
  id : Int
  user_id : Int
  percentage : Rat
  balance : Rat
  created_at : Option Int
deriving DecidableEq, Repr

/-- A `categories` table row (`app/models/category.py`); `jar_id` is the
optional weak reference to a jar. -/
structure Category where
  id : Int
  user_id : Int
  jar_id : Option Int
deriving DecidableEq, Repr

/-- An `expenses` table row (`app/models/expense.py`).  Unlike `Income`,
the model has **no** `original_amount`/`original_currency`/`exchange_rate`
attributes — the absence that makes the expense create/update endpoints
raise (see `create_expense` and `update_expense`). -/
structure Expense where
  id : Int
  user_id : Int
  category_id : Int
  amount : Rat
  description : String
  date : Date
deriving DecidableEq, Repr

/-- An `incomes` table row (`app/models/income.py`); `created_at` is the
distribution-cutoff timestamp. -/
structure Income where
  id : Int
  user_id : Int
  amount : Rat
  source : String
  date : Date
  created_at : Option Int
deriving DecidableEq, Repr

/-- A `transfers` audit row (`app/models/transfer.py`). -/
structure TransferRow where
  from_jar_id : Int
  to_jar_id : Int
  amount : Rat
  user_id : Int
  note : String
deriving DecidableEq, Repr

/-- The relational store as seen by the embedded endpoints. -/
structure LedgerState where
  jars : List Jar
  categories : List Category
  expenses : List Expense
  incomes : List Income
  transfers : List TransferRow
deriving DecidableEq, Repr

/-- Update the first element satisfying `p` (mutating the ORM object
returned by `.first()`). -/
def updateFirstWhere (p : α → Bool) (f : α → α) : List α → List α
  | [] => []
  | x :: xs => if p x then f x :: xs else x :: updateFirstWhere p f xs

/-- Remove the first element satisfying `p` (`db.delete` of the object
returned by `.first()`). -/
def removeFirstWhere (p : α → Bool) : List α → List α
  | [] => []
  | x :: xs => if p x then xs else x :: removeFirstWhere p xs

/-- Embedding of `JarService.update_jar_balance` (`app/services/jar_service.py`): no-op
on a falsy `jar_id` or a zero delta, otherwise add the delta to the
balance of the first jar with that id — the query filters only on
`Jar.id`, never on the owner, and a missing jar is silently ignored. -/
def update_jar_balance (jars : List Jar) (jar_id : Option Int) (amount_delta : Rat) : List Jar :=
  if !truthyId jar_id || amount_delta == 0 then jars
  else
    updateFirstWhere (fun j => j.id == jar_id.getD 0)
      (fun j => { j with balance := j.balance + amount_delta }) jars

/-- Typed failures of the embedded endpoints (each an `HTTPException`
raised before the transaction commits, leaving the store unchanged). -/
inductive ApiError
  | invalidAmount
  | sameJar
  | sourceJarNotFound
  | destJarNotFound
  | insufficientFunds
  | categoryNotFound
  | expenseNotFound
  | incomeNotFound
  | categoryMissing
  | typeError
  | attributeError
deriving DecidableEq, Repr

/-- Embedding of `transfer_funds` (`app/api/transfers.py`): validate amount, distinct
jars, existence/ownership of both jars, then sufficient source balance;
on success subtract/add the amount on the two found jars and append the
audit row.  An error leaves the state untouched (rollback). -/
def transfer_funds (st : LedgerState) (user : Int)
    (from_jar_id to_jar_id : Int) (amount : Rat) (note : String) :
    Option ApiError × LedgerState :=
  if amount ≤ 0 then (some .invalidAmount, st)
  else if from_jar_id == to_jar_id then (some .sameJar, st)
  else
    match st.jars.find? (fun j => j.id == from_jar_id && j.user_id == user) with
    | none => (some .sourceJarNotFound, st)
    | some from_jar =>
      match st.jars.find? (fun j => j.id == to_jar_id && j.user_id == user) with
      | none => (some .destJarNotFound, st)
      | some to_jar =>
        if from_jar.balance < amount then (some .insufficientFunds, st)
        else
          let jars1 := updateFirstWhere (fun j => j.id == from_jar_id && j.user_id == user)
            (fun j => { j with balance := j.balance - amount }) st.jars
          let jars2 := updateFirstWhere (fun j => j.id == to_jar_id && j.user_id == user)
            (fun j => { j with balance := j.balance + amount }) jars1
          (none, { st with
                   jars := jars2
                   transfers := st.transfers ++
                     [⟨from_jar_id, to_jar_id, amount, user, note⟩] })

/-- Embedding of `create_expense` (`app/api/expenses.py`): validate the
category (scoped to the user, 400 if absent), then build the ORM row with
`Expense(..., original_amount=..., original_currency=...,
exchange_rate=...)` (lines 414-420).  The `Expense` model
(`app/models/expense.py`) has none of those three attributes, so the
SQLAlchemy declarative constructor raises `TypeError` on every call —
before `db.add` and before the jar deduction — and the request aborts
with the store untouched.  (`newId` stands for the autoincrement id the
row would have received.) -/
def create_expense (st : LedgerState) (user : Int) (newId : Int)
    (category_id : Int) (amount : Rat) (description : String) (date : Date) :
    Option ApiError × LedgerState :=
  match st.categories.find? (fun c => c.id == category_id && c.user_id == user) with
  | none => (some .categoryNotFound, st)
  | some _category => (some .typeError, st)

/-- The fields of an `ExpenseUpdate` payload the endpoint reads; an
omitted field (`exclude_unset`) is `none`.  `currency` is taken to be
absent (the request shape the claims concern). -/
structure ExpenseUpdatePayload where
  amount : Option Rat
  description : Option String
  date : Option Date
  category_id : Option Int
deriving DecidableEq, Repr

/-- Embedding of `update_expense` (`app/api/expenses.py`): look up the expense (scoped,
404) and validate a provided category (scoped, 400).  Then, with no
`currency` in the payload, the source evaluates
`new_currency or (new_amount and expense.original_currency)` (line 514):
whenever the payload carries a truthy (non-zero) amount this reads the
unmapped attribute `expense.original_currency` and raises
`AttributeError`, aborting the request before the jar logic with the
transaction rolled back.  Only amount-free (or zero-amount) payloads
reach the jar logic — category changed: refund the old category's jar by
the old amount (old category fetched *unscoped*) and deduct the new
category's jar by the new amount; category unchanged but amount changed
(only the zero-amount edge can reach this): apply the single difference
`old - new` to the current category's jar (fetched unscoped). -/
def update_expense (st : LedgerState) (user : Int) (expense_id : Int)
    (upd : ExpenseUpdatePayload) : Option ApiError × LedgerState :=
  match st.expenses.find? (fun e => e.id == expense_id && e.user_id == user) with
  | none => (some .expenseNotFound, st)
  | some expense =>
    let prev_amount := expense.amount
    let prev_category_id := expense.category_id
    let catCheck : Option (Option Category) :=
      match upd.category_id with
      | none => some none
      | some cid =>
        match st.categories.find? (fun c => c.id == cid && c.user_id == user) with
        | none => none
        | some c => some (some c)
    match catCheck with
    | none => (some .categoryNotFound, st)
    | some validated =>
      if (match upd.amount with | some a => a != 0 | none => false) then
        (some .attributeError, st)
      else
        let expense' : Expense :=
          { expense with
            amount := upd.amount.getD expense.amount
            description := upd.description.getD expense.description
            date := upd.date.getD expense.date
            category_id := upd.category_id.getD expense.category_id }
        let jars' :=
          if expense'.category_id ≠ prev_category_id then
            let jars1 :=
              match st.categories.find? (fun c => c.id == prev_category_id) with
              | some old_cat =>
                if truthyId old_cat.jar_id then
                  update_jar_balance st.jars old_cat.jar_id prev_amount
                else st.jars
              | none => st.jars
            match validated with
            | some category =>
              if truthyId category.jar_id then
                update_jar_balance jars1 category.jar_id (-expense'.amount)
              else jars1
            | none => jars1
          else if expense'.amount ≠ prev_amount then
            match st.categories.find? (fun c => c.id == expense'.category_id) with
            | some current_cat =>
              if truthyId current_cat.jar_id then
                update_jar_balance st.jars current_cat.jar_id (prev_amount - expense'.amount)
              else st.jars
            | none => st.jars
          else st.jars
        (none, { st with
                 jars := jars'
                 expenses := updateFirstWhere
                   (fun e => e.id == expense_id && e.user_id == user)
                   (fun _ => expense') st.expenses })

/-- Embedding of `delete_expense` (`app/api/expenses.py`): look up the expense (scoped,
404), refund its amount to the jar linked through `expense.category` (the
ORM relationship resolves the category by id, unscoped), remove the row.
A dangling `category_id` would make `expense.category.jar_id` raise, so
that case is marked as an error. -/
def delete_expense (st : LedgerState) (user : Int) (expense_id : Int) :
    Option ApiError × LedgerState :=
  match st.expenses.find? (fun e => e.id == expense_id && e.user_id == user) with
  | none => (some .expenseNotFound, st)
  | some expense =>
    match st.categories.find? (fun c => c.id == expense.category_id) with
    | none => (some .categoryMissing, st)
    | some category =>
      let jars' :=
        if truthyId category.jar_id then
          update_jar_balance st.jars category.jar_id expense.amount
        else st.jars
      (none, { st with
               jars := jars'
               expenses := removeFirstWhere
                 (fun e => e.id == expense_id && e.user_id == user) st.expenses })

/-- Embedding of `create_income` (`app/api/incomes.py`), no-foreign-currency path:
insert the income row, then for each jar of the user add
`amount * percentage / 100` to its balance.  There is no jar-creation-time
cutoff on this path; `now` is the `created_at` the store stamps on the new
row.  The distribution uses the request amount directly. -/
def create_income (st : LedgerState) (user : Int) (newId : Int)
    (amount : Rat) (source : String) (date : Date) (now : Int) : LedgerState :=
  let income : Income := ⟨newId, user, amount, source, date, some now⟩
  let jars' := st.jars.map (fun jar =>
    if jar.user_id == user then
      { jar with balance := jar.balance + amount * jar.percentage / 100 }
    else jar)
  { st with
    incomes := st.incomes ++ [income]
    jars := jars' }

/-- Embedding of `update_income` (`app/api/incomes.py`), no-foreign-currency path:
look up the income (scoped, 404); reverse the old distribution over the
user's jars, skipping any jar whose `created_at` is after the income's
`created_at`; overwrite the record's fields; then re-apply the new
distribution over the user's jars with **no** creation-time skip. -/
def update_income (st : LedgerState) (user : Int) (income_id : Int)
    (new_amount : Rat) (new_source : String) (new_date : Date) :
    Option ApiError × LedgerState :=
  match st.incomes.find? (fun i => i.id == income_id && i.user_id == user) with
  | none => (some .incomeNotFound, st)
  | some db_income =>
    let old_amount := db_income.amount
    let jars1 := st.jars.map (fun jar =>
      if jar.user_id == user then
        match jar.created_at, db_income.created_at with
        | some jc, some ic =>
          if ic < jc then jar
          else { jar with balance := jar.balance - old_amount * jar.percentage / 100 }
        | _, _ =>
          { jar with balance := jar.balance - old_amount * jar.percentage / 100 }
      else jar)
    let income' : Income :=
      { db_income with amount := new_amount, source := new_source, date := new_date }
    let jars2 := jars1.map (fun jar =>
      if jar.user_id == user then
        { jar with balance := jar.balance + new_amount * jar.percentage / 100 }
      else jar)
    (none, { st with
             jars := jars2
             incomes := updateFirstWhere
               (fun i => i.id == income_id && i.user_id == user)
               (fun _ => income') st.incomes })

/-- The store as seen by the recurring materializer: the recurring
templates plus the tables it could touch (it writes expenses and
templates; jars and categories are in the session but never read or
written by the service). -/
structure ProcState where
  templates : List RecurringExpense
  expenses : List Expense
  categories : List Category
  jars : List Jar
deriving DecidableEq, Repr

/-- The body of the loop in
`RecurringExpenseService.process_all_due_expenses` for one template:
if a next due date exists and is `<= today`, call
`create_expense_from_recurring` — which inserts a bare `Expense` row
copied from the template, dated at the due date, and sets
`last_created := due_date`; it performs no jar lookup and no balance
update.  Otherwise leave the template alone.  (`newId` of created rows is
abstracted away: counting and balances never read expense ids here, so
created rows carry id 0.) -/
def processTemplate (today : Date) (t : RecurringExpense) :
    RecurringExpense × Option Expense :=
  match next_due_date t today with
  | some next_due =>
    if dleb next_due today then
      ({ t with last_created := some next_due },
       some ⟨0, t.user_id, t.category_id, t.amount, t.description, next_due⟩)
    else (t, none)
  | none => (t, none)

/-- Embedding of `RecurringExpenseService.process_all_due_expenses`
(`app/core/recurring_expense_service.py`): query the active templates,
process each in order (inactive ones are untouched), append the created
expense rows, and return the number of expenses created.  Jar and
category tables pass through unread and unwritten. -/
def process_all_due_expenses (today : Date) (st : ProcState) : ProcState × Nat :=
  let results := st.templates.map (fun t =>
    if t.is_active then processTemplate today t else (t, none))
  let created := results.filterMap Prod.snd
  ({ st with
     templates := results.map Prod.fst
     expenses := st.expenses ++ created },
   created.length)

/-- The loop condition of `process_all_due_expenses` for one template:
a next due date exists and is `<= today`. -/
def dueOn (today : Date) (t : RecurringExpense) : Bool :=
  match next_due_date t today with
  | some d => dleb d today
  | none => false

/-- The template as left behind by one materializer pass (the active
filter plus `processTemplate`). -/
def afterRun (today : Date) (t : RecurringExpense) : RecurringExpense :=
  (if t.is_active then processTemplate today t else (t, none)).1

lemma updateFirstWhere_not_found {α} (p : α → Bool) (f : α → α) :
    ∀ l : List α, (∀ x ∈ l, p x = false) → updateFirstWhere p f l = l := by
  intro l
  induction l with
  | nil => intro _; rfl
  | cons a as ih =>
    intro h
    have ha := h a (by simp)
    simp [updateFirstWhere, ha]
    exact ih (fun x hx => h x (by simp [hx]))

lemma updateFirstWhere_congr {α} (p : α → Bool) (f g : α → α)
    (hfg : ∀ x, f x = g x) : ∀ l : List α, updateFirstWhere p f l = updateFirstWhere p g l := by
  intro l
  induction l with
  | nil => rfl
  | cons a as ih =>
    by_cases hp : p a = true
    · simp [updateFirstWhere, hp, hfg a]
    · simp [updateFirstWhere, hp, ih]

lemma updateFirstWhere_id {α} (p : α → Bool) (f : α → α)
    (hf : ∀ x, f x = x) : ∀ l : List α, updateFirstWhere p f l = l := by
  intro l
  induction l with
  | nil => rfl
  | cons a as ih =>
    by_cases hp : p a = true
    · simp [updateFirstWhere, hp, hf a]
    · simp [updateFirstWhere, hp, ih]

lemma updateFirstWhere_comp {α} (p : α → Bool) (f g : α → α)
    (hpres : ∀ x, p x = true → p (f x) = true) :
    ∀ l : List α, updateFirstWhere p g (updateFirstWhere p f l)
      = updateFirstWhere p (fun x => g (f x)) l := by
  intro l
  induction l with
  | nil => rfl
  | cons a as ih =>
    by_cases hp : p a = true
    · simp [updateFirstWhere, hp, hpres a hp]
    · simp [updateFirstWhere, hp, ih]

lemma find?_append_singleton {α} (p : α → Bool) (y : α) :
    ∀ l : List α, (∀ x ∈ l, p x = false) → p y = true →
      (l ++ [y]).find? p = some y := by
  intro l
  induction l with
  | nil => intro _ hy; simp [List.find?, hy]
  | cons a as ih =>
    intro h hy
    have ha := h a (by simp)
    simp only [List.cons_append, List.find?]
    rw [ha]
    exact ih (fun x hx => h x (by simp [hx])) hy

lemma map_congr_mem {α β} {f g : α → β} :
    ∀ l : List α, (∀ a ∈ l, f a = g a) → l.map f = l.map g := by
  intro l
  induction l with
  | nil => intro _; rfl
  | cons a as ih =>
    intro h
    simp only [List.map_cons]
    rw [h a (by simp), ih (fun x hx => h x (by simp [hx]))]

/-- A zero delta through the ledger leaves the store untouched (even when
it reaches the update, adding zero is the identity). -/
lemma update_jar_balance_zero (jars : List Jar) (jar_id : Option Int) :
    update_jar_balance jars jar_id 0 = jars := by
  unfold update_jar_balance
  simp

lemma updateJar_then (jid : Int) (d1 d2 : Rat) :
    ∀ l : List Jar,
      updateFirstWhere (fun j => j.id == jid) (fun j => { j with balance := j.balance + d2 })
        (updateFirstWhere (fun j => j.id == jid) (fun j => { j with balance := j.balance + d1 }) l)
      = updateFirstWhere (fun j => j.id == jid)
          (fun j => { j with balance := j.balance + (d1 + d2) }) l := by
  intro l
  induction l with
  | nil => rfl
  | cons a as ih =>
    by_cases hp : (a.id == jid) = true
    · simp [updateFirstWhere, hp, add_assoc]
    · simp [updateFirstWhere, hp, ih]

/-- Two consecutive ledger calls on the same jar id collapse to one call
with the summed delta: "refund then deduct" equals the single signed
difference. -/
lemma update_jar_balance_comp (jars : List Jar) (jar_id : Option Int) (d1 d2 : Rat) :
    update_jar_balance (update_jar_balance jars jar_id d1) jar_id d2
      = update_jar_balance jars jar_id (d1 + d2) := by
  by_cases ht : truthyId jar_id = true
  · by_cases h1 : d1 = 0
    · subst h1
      rw [update_jar_balance_zero, zero_add]
    · by_cases h2 : d2 = 0
      · subst h2
        rw [update_jar_balance_zero, add_zero]
      · unfold update_jar_balance
        simp only [ht, Bool.not_true, Bool.false_or, beq_iff_eq, h1, h2, if_false]
        by_cases h12 : d1 + d2 = 0
        · simp only [h12, if_true]
          rw [updateJar_then]
          rw [h12]
          exact updateFirstWhere_id _ _ (fun j => by simp) jars
        · simp only [h12, if_false]
          exact updateJar_then _ d1 d2 jars
  · unfold update_jar_balance
    simp [ht]

/-- The call-site guard `if category.jar_id:` is redundant with the
no-op guard inside `update_jar_balance`. -/
lemma guarded_update_jar_balance (jars : List Jar) (jid : Option Int) (d : Rat) :
    (if truthyId jid then update_jar_balance jars jid d else jars)
      = update_jar_balance jars jid d := by
  by_cases h : truthyId jid = true
  · simp [h]
  · unfold update_jar_balance
    simp [h]

lemma dltb_eq_true_iff (a b : Date) :
    dltb a b = true ↔
      (a.year < b.year ∨ (a.year = b.year ∧ (a.month < b.month ∨
        (a.month = b.month ∧ a.day < b.day)))) := by
  simp [dltb, Bool.or_eq_true, Bool.and_eq_true, decide_eq_true_eq, beq_iff_eq]

lemma dleb_eq_true_iff (a b : Date) :
    dleb a b = true ↔
      (a.year < b.year ∨ (a.year = b.year ∧ (a.month < b.month ∨
        (a.month = b.month ∧ a.day ≤ b.day)))) := by
  simp [dleb, Bool.or_eq_true, Bool.and_eq_true, decide_eq_true_eq, beq_iff_eq]

lemma dleb_dltb_trans {a b c : Date}
    (h1 : dleb a b = true) (h2 : dltb b c = true) : dltb a c = true := by
  rw [dleb_eq_true_iff] at h1
  rw [dltb_eq_true_iff] at h2 ⊢
  omega

lemma dleb_of_not_dltb {a b : Date} (h : ¬ dltb a b = true) : dleb b a = true := by
  rw [Bool.not_eq_true] at h
  have h' : ¬ dltb a b = true := by rw [h]; simp
  rw [dltb_eq_true_iff] at h'
  rw [dleb_eq_true_iff]
  omega

lemma daysInMonth_pos (y m : Nat) : 1 ≤ daysInMonth y m := by
  unfold daysInMonth
  split
  · split <;> omega
  · split <;> omega

lemma addOneMonthClamped_month_pos (d : Date) : 1 ≤ (addOneMonthClamped d).month := by
  unfold addOneMonthClamped
  by_cases h : d.month = 12 <;> simp [h]

/-- The `ValueError` fallback `replace(day=1) + relativedelta(months=1)
- timedelta(days=1)` lands on the last day of the month it started in. -/
lemma lastDayTrick (y m : Nat) (hm : 1 ≤ m) :
    prevDay (addOneMonthClamped ⟨y, m, 1⟩) = ⟨y, m, daysInMonth y m⟩ := by
  by_cases h12 : m = 12
  · subst h12
    have h1 : addOneMonthClamped ⟨y, 12, 1⟩ = ⟨y + 1, 1, 1⟩ := by
      have hp := daysInMonth_pos (y + 1) 1
      simp [addOneMonthClamped]
      omega
    have h2 : prevDay ⟨y + 1, 1, 1⟩ = ⟨y, 12, 31⟩ := by
      simp [prevDay]
    rw [h1, h2]
    simp [daysInMonth]
  · have h1 : addOneMonthClamped ⟨y, m, 1⟩ = ⟨y, m + 1, 1⟩ := by
      have hp := daysInMonth_pos y (m + 1)
      simp [addOneMonthClamped, h12]
      omega
    have h2 : prevDay ⟨y, m + 1, 1⟩ = ⟨y, m, daysInMonth y m⟩ := by
      have hgt : 1 < m + 1 := by omega
      simp [prevDay, hgt]
    rw [h1, h2]

/-- Lemma: `monthlyNext` always lands in the month right after the anchor's. -/
lemma monthlyNext_year_month (dom : Option Nat) (base : Date) :
    (monthlyNext dom base).year = (addOneMonthClamped base).year ∧
    (monthlyNext dom base).month = (addOneMonthClamped base).month := by
  cases dom with
  | none => exact ⟨rfl, rfl⟩
  | some dm =>
    simp only [monthlyNext]
    by_cases h0 : dm ≠ 0
    · rw [if_pos h0]
      by_cases hr : 1 ≤ dm ∧ dm ≤ daysInMonth (addOneMonthClamped base).year (addOneMonthClamped base).month
      · rw [if_pos hr]
        exact ⟨rfl, rfl⟩
      · rw [if_neg hr, lastDayTrick _ _ (addOneMonthClamped_month_pos base)]
        exact ⟨rfl, rfl⟩
    · rw [if_neg h0]
      exact ⟨rfl, rfl⟩

/-- Any date in the month right after `base`'s month is strictly later
than `base`. -/
lemma dltb_of_next_month {base x : Date}
    (hy : x.year = (addOneMonthClamped base).year)
    (hm : x.month = (addOneMonthClamped base).month) :
    dltb base x = true := by
  rw [dltb_eq_true_iff]
  unfold addOneMonthClamped at hy hm
  by_cases h12 : base.month = 12
  · simp [h12] at hy hm
    omega
  · simp [h12] at hy hm
    omega

lemma monthlyNext_gt (dom : Option Nat) (base : Date) :
    dltb base (monthlyNext dom base) = true :=
  dltb_of_next_month (monthlyNext_year_month dom base).1 (monthlyNext_year_month dom base).2

lemma nextDay_gt (d : Date) : dltb d (nextDay d) = true := by
  rw [dltb_eq_true_iff]
  unfold nextDay
  by_cases h1 : d.day < daysInMonth d.year d.month
  · simp [h1]
  · by_cases h2 : d.month < 12 <;> simp [h1, h2]

lemma addDays_succ_gt (d : Date) (n : Nat) : dltb d (addDays d (n + 1)) = true := by
  induction n with
  | zero => exact nextDay_gt d
  | succ k ih =>
    have hstep := nextDay_gt (addDays d (k + 1))
    have heq : addDays d (k + 1 + 1) = nextDay (addDays d (k + 1)) := rfl
    rw [heq, dltb_eq_true_iff]
    rw [dltb_eq_true_iff] at ih hstep
    omega

lemma addOneYearClamped_gt (d : Date) : dltb d (addOneYearClamped d) = true := by
  rw [dltb_eq_true_iff]
  simp [addOneYearClamped]

/-- Every recognized frequency advances the anchor strictly. -/
lemma rawNextFromAnchor_gt {t : RecurringExpense} {base r : Date}
    (h : rawNextFromAnchor t base = some r) : dltb base r = true := by
  unfold rawNextFromAnchor at h
  by_cases hm : t.frequency = "monthly"
  · rw [if_pos hm, Option.some.injEq] at h
    subst h
    exact monthlyNext_gt t.day_of_month base
  · rw [if_neg hm] at h
    by_cases hw : t.frequency = "weekly"
    · rw [if_pos hw, Option.some.injEq] at h
      subst h
      exact addDays_succ_gt base 6
    · rw [if_neg hw] at h
      by_cases hy : t.frequency = "yearly"
      · rw [if_pos hy, Option.some.injEq] at h
        subst h
        exact addOneYearClamped_gt base
      · rw [if_neg hy] at h
        exact Option.noConfusion h

/-- A concrete monthly template: `day_of_month = 31`,
`last_created = 2024-01-31`, no end date, active. -/
def clampTemplate : RecurringExpense :=
  ⟨1, 1, 1, 50, "rent", "monthly", some 31, none,
   ⟨2024, 1, 31⟩, none, true, some ⟨2024, 1, 31⟩⟩

/-- C6: for a monthly template with `day_of_month = 31` and
`last_created = 2024-01-31`, `next_due_date` on `today = 2024-02-10`
returns `2024-02-29` — the day is clamped to the last day of February in
the leap year 2024 — and the computation is total (no error). -/
theorem c6_monthly_clamp_leap_february :
    next_due_date clampTemplate ⟨2024, 2, 10⟩ = some ⟨2024, 2, 29⟩ := by
  decide

/-- C7: `next_due_date` returns `none` whenever the template is inactive,
or its `end_date` is set and strictly before `today`, or the computed
next occurrence (`rawNextDate`) is strictly after `end_date`. -/
theorem c7_next_due_date_none_conditions (t : RecurringExpense) (today : Date)
    (h : t.is_active = false ∨
         (∃ e, t.end_date = some e ∧ dltb e today = true) ∨
         (∃ e r, t.end_date = some e ∧ rawNextDate t = some r ∧ dltb e r = true)) :
    next_due_date t today = none := by
  by_cases ha : t.is_active = true
  · rcases h with h | ⟨e, he, hlt⟩ | ⟨e, r, he, hr, hlt⟩
    · rw [ha] at h
      exact Bool.noConfusion h
    · cases hlc : t.last_created with
      | none =>
        simp [next_due_date, ha, he, hlc, hlt]
      | some lc =>
        by_cases hlce : dltb lc e = true
        · simp [next_due_date, ha, he, hlc, hlt, hlce]
        · have hge : dleb e lc = true := dleb_of_not_dltb hlce
          rw [Bool.not_eq_true] at hlce
          cases hraw : rawNextFromAnchor t lc with
          | none => simp [next_due_date, ha, he, hlc, hlce, hraw]
          | some nd =>
            have hlt2 : dltb e nd = true :=
              dleb_dltb_trans hge (rawNextFromAnchor_gt hraw)
            simp [next_due_date, ha, he, hlc, hlce, hraw, hlt2]
    · cases hlc : t.last_created with
      | none =>
        have hrs : r = t.start_date := by
          unfold rawNextDate at hr
          rw [hlc] at hr
          exact (Option.some.injEq _ _ ▸ hr).symm
        subst hrs
        by_cases hg : dltb e today = true
        · simp [next_due_date, ha, he, hlc, hg]
        · rw [Bool.not_eq_true] at hg
          simp [next_due_date, ha, he, hlc, hg, hlt]
      | some lc =>
        have hraw : rawNextFromAnchor t lc = some r := by
          unfold rawNextDate at hr
          rw [hlc] at hr
          exact hr
        by_cases hlce : dltb lc e = true
        · by_cases hg : dltb e today = true
          · simp [next_due_date, ha, he, hlc, hg, hlce]
          · rw [Bool.not_eq_true] at hg
            simp [next_due_date, ha, he, hlc, hg, hlce, hraw, hlt]
        · rw [Bool.not_eq_true] at hlce
          simp [next_due_date, ha, he, hlc, hlce, hraw, hlt]
  · rw [Bool.not_eq_true] at ha
    simp [next_due_date, ha]

/-- Witness for C7: a concrete inactive template evaluates to `none`. -/
theorem c7_witness :
    next_due_date
      ⟨2, 1, 1, 10, "gym", "weekly", none, some 2,
       ⟨2024, 3, 6⟩, none, false, some ⟨2024, 3, 6⟩⟩
      ⟨2024, 3, 10⟩ = none :=
  c7_next_due_date_none_conditions _ _ (Or.inl rfl)

lemma processTemplate_is_active (today : Date) (t : RecurringExpense) :
    ((processTemplate today t).1).is_active = t.is_active := by
  unfold processTemplate
  cases h : next_due_date t today with
  | none => rfl
  | some nd =>
    by_cases hd : dleb nd today = true
    · simp [hd]
    · rw [Bool.not_eq_true] at hd
      simp [hd]

/-- A template that is no longer due after one pass is a fixed point of
the per-template processing step. -/
lemma second_run_fixed (today : Date) (t : RecurringExpense)
    (H : dueOn today (afterRun today t) = false) :
    (if (afterRun today t).is_active then processTemplate today (afterRun today t)
     else (afterRun today t, none)) = (afterRun today t, none) := by
  by_cases ha : (afterRun today t).is_active = true
  · rw [if_pos ha]
    unfold dueOn at H
    unfold processTemplate
    cases hnd : next_due_date (afterRun today t) today with
    | none => rfl
    | some d =>
      rw [hnd] at H
      have Hd : dleb d today = false := H
      simp [Hd]
  · rw [Bool.not_eq_true] at ha
    rw [ha]
    simp

lemma map_run_all_fixed (g : RecurringExpense → RecurringExpense × Option Expense) :
    ∀ l : List RecurringExpense, (∀ t ∈ l, g t = (t, none)) →
      (l.map g).filterMap Prod.snd = [] ∧ (l.map g).map Prod.fst = l := by
  intro l
  induction l with
  | nil => intro _; exact ⟨rfl, rfl⟩
  | cons a as ih =>
    intro h
    have ha := h a (by simp)
    have ⟨ih1, ih2⟩ := ih (fun x hx => h x (by simp [hx]))
    constructor
    · simp [List.filterMap_cons, ha, ih1]
    · simp [ha, ih2]

/-- C1 (amended): a second materializer run right after a first one
creates no expense and leaves the store unchanged, **provided** no
template is still due after the first pass advanced its anchor by one
period — i.e. each active due template was at most one period behind.
(The unconditional claim fails: the loop advances `last_created` by a
single period per run, so a template more than one period overdue is due
again on the second run; see the counterexample.) -/
theorem c1_materializer_idempotent_when_not_backlogged
    (today : Date) (st : ProcState)
    (H : ∀ t ∈ st.templates, dueOn today (afterRun today t) = false) :
    (process_all_due_expenses today (process_all_due_expenses today st).1).2 = 0 ∧
    (process_all_due_expenses today (process_all_due_expenses today st).1).1
      = (process_all_due_expenses today st).1 := by
  set st1 := (process_all_due_expenses today st).1 with hst1
  have htempl : st1.templates = st.templates.map (fun t => afterRun today t) := by
    rw [hst1]
    show ((st.templates.map fun t =>
      if t.is_active then processTemplate today t else (t, none)).map Prod.fst) = _
    rw [List.map_map]
    rfl
  have hfix : ∀ t1 ∈ st1.templates,
      (if t1.is_active then processTemplate today t1 else (t1, none)) = (t1, none) := by
    intro t1 ht1
    rw [htempl, List.mem_map] at ht1
    obtain ⟨t, ht, rfl⟩ := ht1
    exact second_run_fixed today t (H t ht)
  have ⟨hfm, hft⟩ := map_run_all_fixed _ _ hfix
  constructor
  · show (List.filterMap Prod.snd (List.map
      (fun t => if t.is_active then processTemplate today t else (t, none))
      st1.templates)).length = 0
    rw [hfm]
    rfl
  · show ProcState.mk
      (List.map Prod.fst (List.map
        (fun t => if t.is_active then processTemplate today t else (t, none))
        st1.templates))
      (st1.expenses ++ List.filterMap Prod.snd (List.map
        (fun t => if t.is_active then processTemplate today t else (t, none))
        st1.templates))
      st1.categories st1.jars = st1
    rw [hfm, hft]
    simp

/-- Template two periods behind `today = 2024-03-20`: anchor 2024-01-15. -/
def c1Template : RecurringExpense :=
  ⟨1, 1, 1, 50, "rent", "monthly", some 15, none,
   ⟨2024, 1, 15⟩, none, true, some ⟨2024, 1, 15⟩⟩

def c1State : ProcState := ⟨[c1Template], [], [], []⟩

/-- C1 is false as stated: for this active monthly template whose anchor
is two periods behind `today`, the first run creates one expense (due
2024-02-15) and the immediately following second run creates another one
(due 2024-03-15), so two runs create 2 expense rows, not 1. -/
theorem c1_counterexample :
    (process_all_due_expenses ⟨2024, 3, 20⟩ c1State).2 = 1 ∧
    (process_all_due_expenses ⟨2024, 3, 20⟩
        (process_all_due_expenses ⟨2024, 3, 20⟩ c1State).1).2 = 1 := by
  decide

/-- Template exactly one period behind `today = 2024-03-20`. -/
def c1WTemplate : RecurringExpense :=
  ⟨1, 1, 1, 50, "rent", "monthly", some 15, none,
   ⟨2024, 1, 15⟩, none, true, some ⟨2024, 2, 15⟩⟩

def c1WState : ProcState := ⟨[c1WTemplate], [], [], []⟩

/-- Witness for C1 (amended) at a concrete one-period-behind template. -/
theorem c1_witness :
    (process_all_due_expenses ⟨2024, 3, 20⟩
        (process_all_due_expenses ⟨2024, 3, 20⟩ c1WState).1).2 = 0 ∧
    (process_all_due_expenses ⟨2024, 3, 20⟩
        (process_all_due_expenses ⟨2024, 3, 20⟩ c1WState).1).1
      = (process_all_due_expenses ⟨2024, 3, 20⟩ c1WState).1 :=
  c1_materializer_idempotent_when_not_backlogged ⟨2024, 3, 20⟩ c1WState (by decide)

def c2Jar : Jar := ⟨1, 1, 60, 100, none⟩

def c2Category : Category := ⟨3, 1, some 1⟩

def c2Template : RecurringExpense :=
  ⟨1, 1, 3, 50, "rent", "monthly", some 15, none,
   ⟨2024, 1, 15⟩, none, true, some ⟨2024, 2, 15⟩⟩

def c2State : ProcState := ⟨[c2Template], [], [c2Category], [c2Jar]⟩

/-- C2 is false as stated: this active template is due (the run creates
exactly one expense) and its category is linked to jar 1, yet after the
run the jar's balance is still 100 — not decreased by the template's
amount 50 — because `create_expense_from_recurring` inserts the expense
row directly and never calls the jar-balance helper. -/
theorem c2_counterexample :
    (process_all_due_expenses ⟨2024, 3, 20⟩ c2State).2 = 1 ∧
    c2Category.jar_id = some c2Jar.id ∧
    c2Template.category_id = c2Category.id ∧
    (process_all_due_expenses ⟨2024, 3, 20⟩ c2State).1.jars = [c2Jar] ∧
    c2Jar.balance = 100 ∧
    (100 : Rat) ≠ 100 - c2Template.amount := by
  refine ⟨by decide, rfl, rfl, by decide, rfl, by norm_num [c2Template]⟩

/-- C2 (amended): materialization bypasses the Expense–Jar Linkage —
`process_all_due_expenses` creates bare expense rows and leaves every
jar balance (and the category table) exactly unchanged. -/
theorem c2_amended_materializer_leaves_jar_balances_unchanged
    (today : Date) (st : ProcState) :
    (process_all_due_expenses today st).1.jars = st.jars ∧
    (process_all_due_expenses today st).1.categories = st.categories :=
  ⟨rfl, rfl⟩

def c3Jar : Jar := ⟨5, 2, 60, 100, none⟩

/-- C3 is false as stated: `update_jar_balance` takes no requesting user
and performs no ownership check — called with jar id 5 while the jar with
that id belongs to user 2, it changes that jar's balance (here 100 -> 90)
instead of failing; and with no jar of that id at all it silently
returns (the unchanged empty table) instead of raising `NotFound`. -/
theorem c3_counterexample :
    update_jar_balance [c3Jar] (some 5) (-10) = [⟨5, 2, 60, 90, none⟩] ∧
    update_jar_balance [c3Jar] (some 5) (-10) ≠ [c3Jar] ∧
    update_jar_balance [] (some 5) (-10) = [] := by
  refine ⟨?_, ?_, by decide⟩
  · simp [update_jar_balance, updateFirstWhere, truthyId, c3Jar]
    norm_num
  · simp [update_jar_balance, updateFirstWhere, truthyId, c3Jar]

/-- C3 (amended): when no jar carries the requested id,
`update_jar_balance` is a silent no-op — it returns normally with every
balance unchanged and raises no `NotFound`; ownership is never consulted
(the function has no user argument at all, so a jar of another user with
the requested id would be updated normally). -/
theorem c3_amended_missing_jar_silent_noop
    (jars : List Jar) (jid : Int) (delta : Rat)
    (h : ∀ j ∈ jars, j.id ≠ jid) :
    update_jar_balance jars (some jid) delta = jars := by
  unfold update_jar_balance
  by_cases hc : (!truthyId (some jid) || delta == 0) = true
  · rw [if_pos hc]
  · rw [if_neg hc]
    apply updateFirstWhere_not_found
    intro x hx
    simp [h x hx]

/-- Witness for C3 (amended): a state whose only jar has a different id. -/
theorem c3_witness :
    update_jar_balance [⟨1, 1, 50, 20, none⟩] (some 5) 7 = [⟨1, 1, 50, 20, none⟩] :=
  c3_amended_missing_jar_silent_noop [⟨1, 1, 50, 20, none⟩] 5 7 (by decide)

/-- C4: a transfer whose amount is positive, whose two jar ids differ and
resolve (scoped to the user) to existing jars, but whose source jar holds
less than the amount, fails with `InsufficientFunds` and returns the
store exactly as it was: no balance moved, no `Transfer` row inserted. -/
theorem c4_transfer_insufficient_funds
    (st : LedgerState) (user from_jar_id to_jar_id : Int)
    (amount : Rat) (note : String) (from_jar to_jar : Jar)
    (h0 : 0 < amount)
    (h1 : from_jar_id ≠ to_jar_id)
    (h2 : st.jars.find? (fun j => j.id == from_jar_id && j.user_id == user) = some from_jar)
    (h3 : st.jars.find? (fun j => j.id == to_jar_id && j.user_id == user) = some to_jar)
    (h4 : from_jar.balance < amount) :
    transfer_funds st user from_jar_id to_jar_id amount note
      = (some .insufficientFunds, st) := by
  have h0' : ¬ amount ≤ 0 := not_le.mpr h0
  simp [transfer_funds, h2, h3, h0', h1, h4]

def c4State : LedgerState :=
  ⟨[⟨1, 1, 0, 100, none⟩, ⟨2, 1, 0, 5, none⟩], [], [], [], []⟩

/-- Witness for C4: jar 1 holds 100; transferring 150 to jar 2 fails with
`InsufficientFunds` and leaves the store unchanged. -/
theorem c4_witness :
    transfer_funds c4State 1 1 2 150 "" = (some ApiError.insufficientFunds, c4State) :=
  c4_transfer_insufficient_funds c4State 1 1 2 150 ""
    ⟨1, 1, 0, 100, none⟩ ⟨2, 1, 0, 5, none⟩
    (by norm_num) (by decide) (by decide) (by decide) (by norm_num)

/-- C9: a user with exactly two jars at percentages 60 and 40 (created
before the income) receives exactly +600 and +400 on a 1000.00 income:
`share = amount * percentage / 100`, exact in decimal arithmetic. -/
theorem c9_income_distribution_60_40 (b1 b2 : Rat) :
    (create_income
        ⟨[⟨1, 7, 60, b1, some 10⟩, ⟨2, 7, 40, b2, some 20⟩], [], [], [], []⟩
        7 99 1000 "salary" ⟨2024, 5, 1⟩ 100).jars
      = [⟨1, 7, 60, b1 + 600, some 10⟩, ⟨2, 7, 40, b2 + 400, some 20⟩] := by
  simp [create_income]
  norm_num

/-- The reversal-skip test of `update_income`/`delete_income`: both
timestamps present and the jar created strictly after the income. -/
def reversalSkips (jar : Jar) (income : Income) : Bool :=
  match jar.created_at, income.created_at with
  | some jc, some ic => if ic < jc then true else false
  | _, _ => false

/-- C10: on income update the reversal of the old distribution skips
every jar created after the income, but the re-application of the new
distribution credits every jar of the user without that skip — each
user jar's balance moves by `-(old share or 0 if skipped) + new share`,
so a jar created after the income is credited a share it never received. -/
theorem c10_update_income_reversal_skip_asymmetry
    (st : LedgerState) (user income_id : Int)
    (new_amount : Rat) (new_source : String) (new_date : Date) (inc : Income)
    (hfind : st.incomes.find? (fun i => i.id == income_id && i.user_id == user) = some inc) :
    (update_income st user income_id new_amount new_source new_date).1 = none ∧
    (update_income st user income_id new_amount new_source new_date).2.jars
      = st.jars.map (fun jar =>
          if jar.user_id == user then
            { jar with balance := jar.balance
                - (if reversalSkips jar inc then 0 else inc.amount * jar.percentage / 100)
                + new_amount * jar.percentage / 100 }
          else jar) := by
  unfold update_income
  rw [hfind]
  refine ⟨rfl, ?_⟩
  show (st.jars.map _).map _ = _
  rw [List.map_map]
  apply map_congr_mem
  intro jar _
  by_cases hu : (jar.user_id == user) = true
  · cases hj : jar.created_at with
    | none =>
      simp [Function.comp, reversalSkips, hj, hu]
    | some jc =>
      cases hi : inc.created_at with
      | none =>
        simp [Function.comp, reversalSkips, hj, hi, hu]
      | some ic =>
        by_cases hlt : ic < jc
        · simp [Function.comp, reversalSkips, hj, hi, hlt, hu]
        · simp [Function.comp, reversalSkips, hj, hi, hlt, hu]
  · rw [Bool.not_eq_true] at hu
    simp [Function.comp, hu]

def c10Income : Income := ⟨5, 1, 100, "salary", ⟨2024, 1, 1⟩, some 10⟩

def c10State : LedgerState :=
  ⟨[⟨1, 1, 60, 1000, some 5⟩, ⟨2, 1, 40, 2000, some 20⟩], [], [], [c10Income], []⟩

/-- Witness for C10: jar 2 (created at time 20, after the income's
time 10) is excluded from the reversal yet credited by the new amount. -/
theorem c10_witness :
    (update_income c10State 1 5 200 "bonus" ⟨2024, 2, 1⟩).1 = none ∧
    (update_income c10State 1 5 200 "bonus" ⟨2024, 2, 1⟩).2.jars
      = c10State.jars.map (fun jar =>
          if jar.user_id == 1 then
            { jar with balance := jar.balance
                - (if reversalSkips jar c10Income then 0
                   else c10Income.amount * jar.percentage / 100)
                + 200 * jar.percentage / 100 }
          else jar) :=
  c10_update_income_reversal_skip_asymmetry c10State 1 5 200 "bonus" ⟨2024, 2, 1⟩
    c10Income (by decide)

/-- C8: code bug — the round trip cannot start.  The claim matches the
evident intent (create deducts, delete refunds, exactly cancelling), but
`create_expense` passes `original_amount`/`original_currency`/
`exchange_rate` keyword arguments to the `Expense` constructor
(expenses.py lines 414-420) while `app/models/expense.py` defines none of
those attributes, so every create request raises `TypeError` before the
row insert and the jar deduction: the endpoint never succeeds and never
changes the store. -/
theorem c8_create_expense_always_type_error
    (st : LedgerState) (user newId category_id : Int)
    (amount : Rat) (description : String) (date : Date) :
    (create_expense st user newId category_id amount description date).2 = st ∧
    (create_expense st user newId category_id amount description date).1 ≠ none := by
  unfold create_expense
  cases h : st.categories.find? (fun c => c.id == category_id && c.user_id == user) with
  | none => exact ⟨rfl, by simp⟩
  | some c => exact ⟨rfl, by simp⟩

def c5State : LedgerState :=
  ⟨[⟨1, 7, 30, 500, none⟩], [⟨3, 7, some 1⟩, ⟨4, 7, some 1⟩],
   [⟨9, 7, 3, 30, "taxi", ⟨2024, 1, 1⟩⟩], [], []⟩

def c5Upd : ExpenseUpdatePayload := ⟨some 40, none, none, none⟩

/-- C5: code bug — the amount-change branch the claim describes is
unreachable.  Updating expense 9 (amount 30, category 3 linked to jar 1)
with the payload `{amount: 40}` makes the source evaluate
`new_currency or (new_amount and expense.original_currency)`
(expenses.py line 514); `original_currency` is not an attribute of the
`Expense` model, so the request raises `AttributeError` and rolls back
before the jar logic: no jar receives the `old - new` delta the claim
(and the code at lines 543-571, dead on such inputs) prescribes. -/
theorem c5_update_amount_change_attribute_error :
    update_expense c5State 7 9 c5Upd = (some ApiError.attributeError, c5State) ∧
    (update_expense c5State 7 9 c5Upd).2.jars = c5State.jars := by
  decide
